import Mathlib

/-!
Verification of the smtp-edc SMTP client (package `client`, `auth`, `config`)
against its natural-language specification.

The Go sources are shallowly embedded: Go strings become `GoStr := List Char`
(Go byte strings; all data handled here is ASCII so chars and bytes coincide,
byte values are obtained with `Char.toNat`), machine integers become `Int`
(Go `int`) or `Nat` reduced mod 2^32 where overflow matters (MD5), fallible
code returns `Option`/`Except`, and the network is modelled explicitly: the
stream of reply lines delivered by `bufio.Reader.ReadString` is a
`List GoStr` (each entry one full line, trailing CRLF included; the empty
list models a read error such as EOF), and writes are recorded as events.
Go errors are `fmt.Errorf` strings throughout the source; they are embedded
as the formatted `GoStr` message.
-/

/-- Go byte strings (`string`): a list of ASCII characters. -/
abbrev GoStr := List Char

/-- The CRLF line terminator appended by `SendCommand`. -/
def crlf : GoStr := ['\r', '\n']

/-! ### Go standard string functions used by the client (`strings`, `strconv`) -/

/-- Model of `strings.Split` specialised to the CRLF separator, scanning left
to right as Go does. Never returns an empty list. -/
def splitCRLF : GoStr → List GoStr
  | [] => [[]]
  | '\r' :: '\n' :: rest =>
    [] :: splitCRLF rest
  | c :: rest =>
    match splitCRLF rest with
    | h :: t => (c :: h) :: t
    | [] => [[c]]

/-- `strings.TrimPrefix(s, p)`: drops `p` when it is a leading segment of `s`,
otherwise returns `s` unchanged. -/
def trimPfx (p s : GoStr) : GoStr :=
  if p.isPrefixOf s then s.drop p.length else s

/-- Go `unicode.IsSpace` restricted to the ASCII white space bytes relevant to
SMTP capability lines. -/
def goIsSpace (c : Char) : Bool :=
  c = ' ' || c = '\t' || c = '\n' || c = '\x0b' || c = '\x0c' || c = '\r'

/-- Accumulator-passing worker for `goFields`; `cur` holds the current field
reversed. -/
def goFieldsAux (cur : GoStr) : GoStr → List GoStr
  | [] => if cur.isEmpty then [] else [cur.reverse]
  | c :: rest =>
    if goIsSpace c then
      if cur.isEmpty then goFieldsAux [] rest
      else cur.reverse :: goFieldsAux [] rest
    else goFieldsAux (c :: cur) rest

/-- `strings.Fields(s)`: splits around runs of white space, no empty fields. -/
def goFields (s : GoStr) : List GoStr := goFieldsAux [] s

/-- Digit-run value for `goAtoi`; `none` when `s` is empty or contains a
non-digit byte (the syntax-error cases of `strconv.Atoi`). -/
def digitsVal (s : GoStr) : Option Nat :=
  if s.isEmpty then none
  else s.foldl
    (fun acc c => acc.bind fun n =>
      if '0' ≤ c ∧ c ≤ '9' then some (n * 10 + (c.toNat - 48)) else none)
    (some 0)

/-- `strconv.Atoi` as used in `parseCapabilities` (the error is discarded
there, and on a syntax error Go leaves the result at 0). -/
def goAtoi (s : GoStr) : Int :=
  match s with
  | '+' :: rest => ((digitsVal rest).getD 0 : Nat)
  | '-' :: rest => -((digitsVal rest).getD 0 : Nat)
  | _ => ((digitsVal s).getD 0 : Nat)

/-! ### `encoding/base64` (StdEncoding) and `encoding/hex`, over byte lists -/

/-- Character of a 6-bit value in the standard base64 alphabet. -/
def b64Char (n : Nat) : Char :=
  if n < 26 then Char.ofNat (65 + n)
  else if n < 52 then Char.ofNat (97 + (n - 26))
  else if n < 62 then Char.ofNat (48 + (n - 52))
  else if n = 62 then '+'
  else '/'

/-- `base64.StdEncoding.EncodeToString` over a byte list. -/
def base64Encode : List Nat → GoStr
  | b1 :: b2 :: b3 :: rest =>
    b64Char (b1 / 4) :: b64Char ((b1 % 4) * 16 + b2 / 16) ::
    b64Char ((b2 % 16) * 4 + b3 / 64) :: b64Char (b3 % 64) :: base64Encode rest
  | [b1, b2] =>
    [b64Char (b1 / 4), b64Char ((b1 % 4) * 16 + b2 / 16), b64Char ((b2 % 16) * 4), '=']
  | [b1] =>
    [b64Char (b1 / 4), b64Char ((b1 % 4) * 16), '=', '=']
  | [] => []

/-- 6-bit value of a standard-alphabet base64 character. -/
def b64Val (c : Char) : Option Nat :=
  if 'A' ≤ c ∧ c ≤ 'Z' then some (c.toNat - 65)
  else if 'a' ≤ c ∧ c ≤ 'z' then some (c.toNat - 97 + 26)
  else if '0' ≤ c ∧ c ≤ '9' then some (c.toNat - 48 + 52)
  else if c = '+' then some 62
  else if c = '/' then some 63
  else none

/-- `base64.StdEncoding.DecodeString` over padded input: groups of four
characters, `=` padding only in the final group; `none` on malformed input
(Go returns a `CorruptInputError` there). -/
def base64Decode : GoStr → Option (List Nat)
  | [] => some []
  | c1 :: c2 :: c3 :: c4 :: rest =>
    match b64Val c1, b64Val c2 with
    | some v1, some v2 =>
      if c3 = '=' then
        if c4 = '=' ∧ rest = [] then some [v1 * 4 + v2 / 16] else none
      else
        match b64Val c3 with
        | some v3 =>
          if c4 = '=' then
            if rest = [] then some [v1 * 4 + v2 / 16, (v2 % 16) * 16 + v3 / 4]
            else none
          else
            match b64Val c4 with
            | some v4 =>
              (base64Decode rest).map
                (fun tl => (v1 * 4 + v2 / 16) :: ((v2 % 16) * 16 + v3 / 4) ::
                  ((v3 % 4) * 64 + v4) :: tl)
            | none => none
        | none => none
    | _, _ => none
  | _ => none

/-- One lowercase hexadecimal digit. -/
def hexDigit (n : Nat) : Char :=
  if n < 10 then Char.ofNat (48 + n) else Char.ofNat (87 + n)

/-- `hex.EncodeToString` over a byte list: two lowercase digits per byte. -/
def hexEncode (bs : List Nat) : GoStr :=
  (bs.map (fun b => [hexDigit (b / 16), hexDigit (b % 16)])).flatten

/-! ### `crypto/md5` and `crypto/hmac` (RFC 1321 / RFC 2104)

Byte-level MD5 over `List Nat` with 32-bit words as `Nat` reduced mod 2^32. -/

/-- 2^32, the word modulus of MD5. -/
def m32 : Nat := 4294967296

/-- 2^32 − 1, the 32-bit mask. -/
def mask32 : Nat := 4294967295

/-- 32-bit left rotation (argument already `< 2^32`). -/
def rotl32 (x s : Nat) : Nat :=
  ((x <<< s) ||| (x >>> (32 - s))) &&& mask32

/-- The MD5 sine-derived constant table `K`. -/
def md5K : List Nat :=
  [0xd76aa478, 0xe8c7b756, 0x242070db, 0xc1bdceee,
   0xf57c0faf, 0x4787c62a, 0xa8304613, 0xfd469501,
   0x698098d8, 0x8b44f7af, 0xffff5bb1, 0x895cd7be,
   0x6b901122, 0xfd987193, 0xa679438e, 0x49b40821,
   0xf61e2562, 0xc040b340, 0x265e5a51, 0xe9b6c7aa,
   0xd62f105d, 0x02441453, 0xd8a1e681, 0xe7d3fbc8,
   0x21e1cde6, 0xc33707d6, 0xf4d50d87, 0x455a14ed,
   0xa9e3e905, 0xfcefa3f8, 0x676f02d9, 0x8d2a4c8a,
   0xfffa3942, 0x8771f681, 0x6d9d6122, 0xfde5380c,
   0xa4beea44, 0x4bdecfa9, 0xf6bb4b60, 0xbebfbc70,
   0x289b7ec6, 0xeaa127fa, 0xd4ef3085, 0x04881d05,
   0xd9d4d039, 0xe6db99e5, 0x1fa27cf8, 0xc4ac5665,
   0xf4292244, 0x432aff97, 0xab9423a7, 0xfc93a039,
   0x655b59c3, 0x8f0ccc92, 0xffeff47d, 0x85845dd1,
   0x6fa87e4f, 0xfe2ce6e0, 0xa3014314, 0x4e0811a1,
   0xf7537e82, 0xbd3af235, 0x2ad7d2bb, 0xeb86d391]

/-- The MD5 per-step left-rotation amounts. -/
def md5S : List Nat :=
  [7, 12, 17, 22, 7, 12, 17, 22, 7, 12, 17, 22, 7, 12, 17, 22,
   5, 9, 14, 20, 5, 9, 14, 20, 5, 9, 14, 20, 5, 9, 14, 20,
   4, 11, 16, 23, 4, 11, 16, 23, 4, 11, 16, 23, 4, 11, 16, 23,
   6, 10, 15, 21, 6, 10, 15, 21, 6, 10, 15, 21, 6, 10, 15, 21]

/-- The MD5 round function of step `i` applied to registers `b`, `c`, `d`. -/
def md5F (i b c d : Nat) : Nat :=
  if i < 16 then (b &&& c) ||| ((mask32 ^^^ b) &&& d)
  else if i < 32 then (d &&& b) ||| ((mask32 ^^^ d) &&& c)
  else if i < 48 then b ^^^ c ^^^ d
  else c ^^^ (b ||| (mask32 ^^^ d))

/-- The MD5 message-word index of step `i`. -/
def md5G (i : Nat) : Nat :=
  if i < 16 then i
  else if i < 32 then (5 * i + 1) % 16
  else if i < 48 then (3 * i + 5) % 16
  else (7 * i) % 16

/-- The four MD5 working registers. -/
structure MD5State where
  a : Nat
  b : Nat
  c : Nat
  d : Nat
deriving DecidableEq

/-- One of the 64 MD5 steps, over the 16 message words `M`. -/
def md5Step (M : List Nat) (s : MD5State) (i : Nat) : MD5State :=
  let t := (s.a + md5F i s.b s.c s.d + md5K.getD i 0 + M.getD (md5G i) 0) % m32
  ⟨s.d, (s.b + rotl32 t (md5S.getD i 0)) % m32, s.b, s.c⟩

/-- One MD5 compression: 64 steps over a 64-byte block (little-endian words),
then the Davies–Meyer feed-forward addition. -/
def md5Compress (s0 : MD5State) (block : List Nat) : MD5State :=
  let M := (List.range 16).map
    (fun j => block.getD (4 * j) 0 + 256 * block.getD (4 * j + 1) 0 +
      65536 * block.getD (4 * j + 2) 0 + 16777216 * block.getD (4 * j + 3) 0)
  let s := (List.range 64).foldl (md5Step M) s0
  ⟨(s0.a + s.a) % m32, (s0.b + s.b) % m32, (s0.c + s.c) % m32, (s0.d + s.d) % m32⟩

/-- MD5 padding for a message of `len` bytes: `0x80`, zeros to 56 mod 64,
then the bit length as eight little-endian bytes. -/
def md5Padding (len : Nat) : List Nat :=
  128 :: List.replicate ((119 - len % 64) % 64) 0 ++
    (List.range 8).map (fun i => (((8 * len) % 18446744073709551616) >>> (8 * i)) &&& 255)

/-- Little-endian bytes of one 32-bit word. -/
def le32 (x : Nat) : List Nat :=
  [x &&& 255, (x >>> 8) &&& 255, (x >>> 16) &&& 255, (x >>> 24) &&& 255]

/-- `md5.Sum`: the 16-byte MD5 digest of a byte list. -/
def md5 (msg : List Nat) : List Nat :=
  let padded := msg ++ md5Padding msg.length
  let blocks := (List.range (padded.length / 64)).map
    (fun i => (padded.drop (64 * i)).take 64)
  let s := blocks.foldl md5Compress ⟨0x67452301, 0xefcdab89, 0x98badcfe, 0x10325476⟩
  le32 s.a ++ le32 s.b ++ le32 s.c ++ le32 s.d

/-- `hmac.New(md5.New, key)` followed by `Write(msg)` and `Sum(nil)`:
HMAC-MD5 with block size 64. -/
def hmacMD5 (key msg : List Nat) : List Nat :=
  let key1 := if 64 < key.length then md5 key else key
  let key0 := key1 ++ List.replicate (64 - key1.length) 0
  let ipad := key0.map (fun b => b ^^^ 0x36)
  let opad := key0.map (fun b => b ^^^ 0x5c)
  md5 (opad ++ md5 (ipad ++ msg))

set_option maxRecDepth 100000

/-- Sanity anchor for the MD5 embedding: the RFC 1321 test vector for the
empty message. -/
theorem md5_rfc1321_empty : hexEncode (md5 []) = "d41d8cd98f00b204e9800998ecf8427e".toList := by
  decide

/-- Sanity anchor for the MD5 embedding: the RFC 1321 test vector for "abc". -/
theorem md5_rfc1321_abc :
    hexEncode (md5 ("abc".toList.map Char.toNat)) =
      "900150983cd24fb0d6963f7d28e17f72".toList := by
  decide

/-! ### internal/auth: PLAIN, LOGIN, CRAM-MD5 response generation -/

/-- `PlainAuthenticator.Authenticate` (auth package): base64 of the byte
sequence NUL username NUL password. -/
def plainAuthResponse (username password : GoStr) : GoStr :=
  base64Encode ([0] ++ username.map Char.toNat ++ [0] ++ password.map Char.toNat)

/-- `LoginAuthenticator.Authenticate`: base64 of the username (first step). -/
def loginAuthResponse (username : GoStr) : GoStr :=
  base64Encode (username.map Char.toNat)

/-- `LoginAuthenticator.GetPassword`: base64 of the password (second step). -/
def loginGetPassword (password : GoStr) : GoStr :=
  base64Encode (password.map Char.toNat)

/-- `CRAMMD5Authenticator.GenerateResponse`: base64-decode the challenge,
HMAC-MD5 keyed by the password over the decoded challenge, hex-encode the
digest and return base64 of "username SP hex-digest". The `none` branch
carries the wrapped decode error (its io detail abstracted to a fixed text). -/
def GenerateResponse (challenge username password : GoStr) : Except GoStr GoStr :=
  match base64Decode challenge with
  | none =>
    Except.error ("failed to decode challenge: failed to decode base64: illegal data".toList)
  | some decoded =>
    let digest := hmacMD5 (password.map Char.toNat) decoded
    Except.ok (base64Encode ((username.map Char.toNat) ++ [32] ++
      ((hexEncode digest).map Char.toNat)))

/-! ### `SMTPClient.readResponse` and the retry wrapper -/

/-- `readResponse`: one `reader.ReadString` call. The pending reply lines are
a `List GoStr`; an empty list models the underlying read failing (EOF or
deadline), which the method wraps as "failed to read response". The returned
line is raw: code, text and trailing CRLF included, uninspected. -/
def readResponse (lines : List GoStr) : Except GoStr (GoStr × List GoStr) :=
  match lines with
  | [] => Except.error ("failed to read response: EOF".toList)
  | l :: rest => Except.ok (l, rest)

/-- Observable outcome of one `withRetry` call: how many times `fn` ran, how
many `time.Sleep(c.retry.Delay)` calls happened (each sleeps exactly the
configured `Delay`), and the returned error (`none` is Go `nil`). -/
structure RetryOutcome where
  calls : Nat
  sleeps : Nat
  result : Option GoStr
deriving DecidableEq

/-- The `for attempt := 1; attempt <= c.retry.MaxAttempts; attempt++` loop of
`withRetry`. `fn i` is the error of the i-th invocation (`none` = success);
`lastErr` is the Go local of the same name and `fuel` counts the remaining
iterations permitted by the loop bound, so that running out of fuel is the
loop exiting by its condition and returning `lastErr`. -/
def withRetryAux (fn : Nat → Option GoStr) (operation : GoStr) (maxAttempts : Int)
    (attempt calls sleeps : Nat) (lastErr : Option GoStr) : Nat → RetryOutcome
  | 0 => ⟨calls, sleeps, lastErr⟩
  | fuel + 1 =>
    match fn attempt with
    | some err =>
      if (attempt : Int) < maxAttempts then
        withRetryAux fn operation maxAttempts (attempt + 1) (calls + 1) (sleeps + 1)
          (some err) fuel
      else
        ⟨calls + 1, sleeps,
          some (operation ++ " failed after ".toList ++ (toString maxAttempts).toList ++
            " attempts: ".toList ++ err)⟩
    | none => ⟨calls + 1, sleeps, none⟩

/-- `withRetry(operation, fn)`: attempts start at 1 and the loop runs while
`attempt <= MaxAttempts`, so `MaxAttempts.toNat` iterations can occur;
`lastErr` starts out as Go's zero-valued (nil) error. -/
def withRetry (fn : Nat → Option GoStr) (operation : GoStr) (maxAttempts : Int) :
    RetryOutcome :=
  withRetryAux fn operation maxAttempts 1 0 0 none maxAttempts.toNat

/-! ### `SMTPClient.Connect` -/

/-- One body execution of the closure passed to `withRetry` by `Connect`: the
dial (or reuse of an existing connection) is followed by a single
`readResponse` for the greeting; the line's reply code is never inspected,
only a read failure is an error, wrapped as "failed to read server
greeting". Returns the remaining input on success. -/
def connectAttempt (greeting : List GoStr) : Except GoStr (List GoStr) :=
  match readResponse greeting with
  | Except.error e => Except.error ("failed to read server greeting: ".toList ++ e)
  | Except.ok (_, rest) => Except.ok rest

/-- The attempt's verdict as the `error`-or-nil value `withRetry` sees. -/
def connectAttemptErr (greeting : List GoStr) : Option GoStr :=
  match connectAttempt greeting with
  | Except.error e => some e
  | Except.ok _ => none

/-- `Connect(server, port)`: the attempt above wrapped by
`withRetry("connect", ...)`; every attempt dials afresh and reads the same
greeting the server sends to a new connection. -/
def ConnectModel (maxAttempts : Int) (greeting : List GoStr) : RetryOutcome :=
  withRetry (fun _ => connectAttemptErr greeting) ("connect".toList) maxAttempts

/-! ### `SMTPClient.StartTLS` -/

/-- The mutable fields of `SMTPClient` that `StartTLS` may replace: transport
handle identities (`conn`, `reader`, `writer` — fresh values model the
TLS-wrapped replacements), the `tls` flag, the pending reply lines of the
reader and the wire bytes written so far. -/
structure ClientState where
  conn : Nat
  reader : Nat
  writer : Nat
  tls : Bool
  input : List GoStr
  output : List GoStr
deriving DecidableEq

/-- The read loop of `StartTLS`: lines are read until one with a 4th byte of
SP (a final reply); a final line whose first byte is not '2' is the
rejection error carrying the raw line; continuation lines are skipped.
Returns the remaining input alongside the verdict. -/
def startTLSLoop : List GoStr → Option GoStr × List GoStr
  | [] => (some ("server rejected STARTTLS: failed to read response: EOF".toList), [])
  | l :: rest =>
    if 4 ≤ l.length ∧ l[3]? = some ' ' then
      if l[0]? ≠ some '2' then (some ("server rejected STARTTLS: ".toList ++ l), rest)
      else (none, rest)
    else startTLSLoop rest

/-- Result of `StartTLS`: the returned error, the client state after the
call, and whether `tlsConn.Handshake()` was reached. -/
structure StartTLSRes where
  error : Option GoStr
  state : ClientState
  handshakeAttempted : Bool
deriving DecidableEq

/-- `StartTLS()`: sends STARTTLS, runs the read loop; on a rejection it
returns before touching `conn`/`reader`/`writer`/`tls`; on an accepted reply
it attempts the handshake (outcome abstracted as `handshakeOk`) and only on
handshake success replaces the transport fields and sets `tls`. -/
def StartTLS (st : ClientState) (handshakeOk : Bool) : StartTLSRes :=
  let st1 : ClientState := { st with output := st.output ++ ["STARTTLS".toList ++ crlf] }
  match startTLSLoop st1.input with
  | (some e, rest) => ⟨some e, { st1 with input := rest }, false⟩
  | (none, rest) =>
    let st2 : ClientState := { st1 with input := rest }
    if handshakeOk then
      ⟨none,
        { st2 with conn := st2.conn + 1, reader := st2.reader + 1,
                   writer := st2.writer + 1, tls := true },
        true⟩
    else
      ⟨some ("TLS handshake failed: handshake error".toList), st2, true⟩

/-- The `tls.Config` literal built inside `StartTLS` (part_005 lines
162-166). -/
structure TLSConfigModel where
  serverName : GoStr
  insecureSkipVerify : Bool
  minVersion : Nat
deriving DecidableEq

/-- The `tls.Config` that `StartTLS` constructs. `skipVerifyOption` is the
caller-visible `skip_verify` configuration value (config.SMTPConfig /
the --skip-verify flag, default false): the source never threads it into
this literal, whose `InsecureSkipVerify` field is the constant `true`;
`MinVersion` is `tls.VersionTLS12` (0x0303 = 771). -/
def startTLSConfig (server : GoStr) (skipVerifyOption : Bool) : TLSConfigModel :=
  { serverName := server, insecureSkipVerify := true, minVersion := 771 }

/-! ### `SMTPClient.parseCapabilities` / `Ehlo` -/

/-- The `ServerCapabilities` struct; zero value has all fields empty/false/0. -/
structure ServerCapabilities where
  Pipelining : Bool := false
  StartTLS : Bool := false
  Auth : List GoStr := []
  Size : Int := 0
  EightBit : Bool := false
deriving DecidableEq

/-- One iteration of the `parseCapabilities` line loop: only lines starting
"250-" or "250 " are considered; the remaining keyword selects the field in
the switch order of the source (PIPELINING, STARTTLS, AUTH, SIZE, 8BITMIME);
anything else is ignored. -/
def parseCapLine (caps : ServerCapabilities) (line : GoStr) : ServerCapabilities :=
  if ("250-".toList).isPrefixOf line ∨ ("250 ".toList).isPrefixOf line then
    let capability := trimPfx ("250 ".toList) (trimPfx ("250-".toList) line)
    if ("PIPELINING".toList).isPrefixOf capability then { caps with Pipelining := true }
    else if ("STARTTLS".toList).isPrefixOf capability then { caps with StartTLS := true }
    else if ("AUTH".toList).isPrefixOf capability then
      { caps with Auth := (goFields capability).drop 1 }
    else if ("SIZE".toList).isPrefixOf capability then
      match goFields capability with
      | _ :: sz :: _ => { caps with Size := goAtoi sz }
      | _ => caps
    else if ("8BITMIME".toList).isPrefixOf capability then { caps with EightBit := true }
    else caps
  else caps

/-- `parseCapabilities(response)` as a method: it begins with
`c.capabilities = ServerCapabilities\x7b\x7d`, so the previous capability value
`old` never flows into the result; then it folds over the CRLF-split lines. -/
def parseCapabilitiesFrom (old : ServerCapabilities) (response : GoStr) :
    ServerCapabilities :=
  (splitCRLF response).foldl parseCapLine {}

/-- The value `parseCapabilities` computes from the accumulated EHLO
response text alone. -/
def parseCapabilities (response : GoStr) : ServerCapabilities :=
  (splitCRLF response).foldl parseCapLine {}

/-! ### Transaction executor: recipients and command/read event traces -/

/-- The fields of `message.Message` the transaction executor reads: sender,
the three recipient lists, and the payload `msg.Build()` returns (pre-built
by the message builder; its construction is outside the protocol core). -/
structure Msg where
  From : GoStr
  To : List GoStr
  Cc : List GoStr
  Bcc : List GoStr
  payload : GoStr
deriving DecidableEq

/-- The duplicate-removal loop shared by both send strategies: `seen` is the
`map[string]bool` (membership only), recipients are appended on first
sight. -/
def goDedupAux (seen : List GoStr) : List GoStr → List GoStr
  | [] => []
  | r :: rest =>
    if r ∈ seen then goDedupAux seen rest
    else r :: goDedupAux (r :: seen) rest

/-- `goDedup l`: `l` with duplicates removed, as the source's seen-map loop
computes it. -/
def goDedup (l : List GoStr) : List GoStr := goDedupAux [] l

/-- The unique recipient list both strategies build: To, then Cc, then Bcc,
deduplicated. -/
def uniqueRecipients (msg : Msg) : List GoStr :=
  goDedup (msg.To ++ msg.Cc ++ msg.Bcc)

/-- Modelled from the spec: "recipients are deduplicated across To/Cc/Bcc
preserving first-seen order (stable set)" — keep each element's first
occurrence, deleting the later ones. Stated only to be compared with
`goDedup`. -/
def firstSeenDedup : List GoStr → List GoStr
  | [] => []
  | x :: xs => x :: firstSeenDedup (xs.filter (fun y => y != x))
termination_by l => l.length
decreasing_by
  simp only [List.length_cons]
  exact Nat.lt_succ_of_le (List.length_filter_le _ _)

/-- Transport events of one send attempt: a buffered write of raw bytes, a
flush of the buffered writer, and a consumed reply line. -/
inductive Ev where
  | write (bytes : GoStr)
  | flush
  | read (line : GoStr)
deriving DecidableEq

/-- `SendCommand(cmd)`: one buffered write of `cmd` + CRLF followed
immediately by `writer.Flush()` — every command is flushed individually. -/
def sendCommandEv (cmd : GoStr) : List Ev :=
  [Ev.write (cmd ++ crlf), Ev.flush]

/-- The wire command `MAIL FROM:<from>`. -/
def mailFromCmd (from' : GoStr) : GoStr :=
  "MAIL FROM:<".toList ++ from' ++ ">".toList

/-- The wire command `RCPT TO:<addr>`. -/
def rcptToCmd (to' : GoStr) : GoStr :=
  "RCPT TO:<".toList ++ to' ++ ">".toList

/-- The write-phase events of one `SendMessagePipelined` attempt: MAIL FROM,
every unique RCPT TO and DATA, each through `SendCommand` (write + flush),
then the attempt's explicit `writer.Flush()`. All of this happens before the
first `readResponse`. -/
def pipelinedBatch (msg : Msg) : List Ev :=
  sendCommandEv (mailFromCmd msg.From) ++
    ((uniqueRecipients msg).map (fun r => sendCommandEv (rcptToCmd r))).flatten ++
    sendCommandEv ("DATA".toList) ++ [Ev.flush]

/-- The RCPT TO reply loop of the pipelined attempt: one `readResponse` per
unique recipient, aborting on a read failure. -/
def readLoopRcpt : Nat → List GoStr → List Ev × Except GoStr (List GoStr)
  | 0, input => ([], Except.ok input)
  | _ + 1, [] => ([], Except.error ("failed to read response: EOF".toList))
  | n + 1, l :: rest =>
    let step := readLoopRcpt n rest
    (Ev.read l :: step.1, step.2)

/-- One body execution of the closure `SendMessagePipelined` passes to
`withRetry`: all commands are written (each individually flushed by
`SendCommand`, then the batch-final flush), then exactly one reply is read
per command — MAIL FROM, each RCPT TO, DATA — then the payload and the dot
terminator are sent and the final reply is read. -/
def SendMessagePipelinedAttempt (msg : Msg) (input : List GoStr) :
    List Ev × Option GoStr :=
  let evW := pipelinedBatch msg
  match readResponse input with
  | Except.error e => (evW, some ("MAIL FROM failed: ".toList ++ e))
  | Except.ok (l1, in1) =>
    match readLoopRcpt (uniqueRecipients msg).length in1 with
    | (evR, Except.error e) =>
      (evW ++ Ev.read l1 :: evR, some ("RCPT TO failed: ".toList ++ e))
    | (evR, Except.ok in2) =>
      match readResponse in2 with
      | Except.error e =>
        (evW ++ Ev.read l1 :: evR, some ("DATA command failed: ".toList ++ e))
      | Except.ok (l3, in3) =>
        let evP := sendCommandEv msg.payload ++ sendCommandEv (".".toList)
        match readResponse in3 with
        | Except.error e => (evW ++ Ev.read l1 :: evR ++ Ev.read l3 :: evP, some e)
        | Except.ok (l4, _) =>
          (evW ++ Ev.read l1 :: evR ++ Ev.read l3 :: evP ++ [Ev.read l4], none)

/-- The sequential RCPT TO loop of `sendMessageNonPipelined`: for each unique
recipient `RcptTo` sends the command and reads its reply before the next,
wrapping a failure as "failed to set recipient". -/
def rcptSeqLoop : List GoStr → List GoStr → List Ev × Except GoStr (List GoStr)
  | [], input => ([], Except.ok input)
  | r :: rs, input =>
    let evC := sendCommandEv (rcptToCmd r)
    match readResponse input with
    | Except.error e =>
      (evC, Except.error ("failed to set recipient ".toList ++ r ++ ": ".toList ++ e))
    | Except.ok (l, rest) =>
      let step := rcptSeqLoop rs rest
      (evC ++ Ev.read l :: step.1, step.2)

/-- One body execution of the closure `sendMessageNonPipelined` passes to
`withRetry`: MAIL FROM then its reply, each RCPT TO then its reply, DATA
then its reply, payload and dot terminator, final reply. -/
def sendMessageNonPipelinedAttempt (msg : Msg) (input : List GoStr) :
    List Ev × Option GoStr :=
  let evMF := sendCommandEv (mailFromCmd msg.From)
  match readResponse input with
  | Except.error e => (evMF, some ("failed to set sender: ".toList ++ e))
  | Except.ok (l1, in1) =>
    let ev1 := evMF ++ [Ev.read l1]
    match rcptSeqLoop (uniqueRecipients msg) in1 with
    | (evR, Except.error e) => (ev1 ++ evR, some e)
    | (evR, Except.ok in2) =>
      let ev2 := ev1 ++ evR ++ sendCommandEv ("DATA".toList)
      match readResponse in2 with
      | Except.error e => (ev2, some ("server rejected DATA command: ".toList ++ e))
      | Except.ok (l3, in3) =>
        let ev3 := ev2 ++ Ev.read l3 :: sendCommandEv msg.payload ++
          sendCommandEv (".".toList)
        match readResponse in3 with
        | Except.error e => (ev3, some e)
        | Except.ok (l4, _) => (ev3 ++ [Ev.read l4], none)

/-- Number of buffered command/payload writes in a trace. -/
def countWrites (t : List Ev) : Nat :=
  t.countP (fun e => match e with | Ev.write _ => true | _ => false)

/-- Number of reply reads in a trace. -/
def countReads (t : List Ev) : Nat :=
  t.countP (fun e => match e with | Ev.read _ => true | _ => false)

/-- Number of writer flushes in a trace. -/
def countFlushes (t : List Ev) : Nat :=
  t.countP (fun e => match e with | Ev.flush => true | _ => false)

/-- Number of RCPT TO command writes in a trace. -/
def countRcptWrites (t : List Ev) : Nat :=
  t.countP (fun e => match e with
    | Ev.write s => ("RCPT TO:<".toList).isPrefixOf s
    | _ => false)

/-! ### `SMTPClient.Authenticate` and the CLI credential gate -/

/-- Observable outcome of one `Authenticate` call: the wire writes (each
command plus CRLF, in order) and the returned error. -/
structure AuthRun where
  sent : List GoStr
  result : Option GoStr
deriving DecidableEq

/-- `Authenticate(authType, username, password)` over pending reply lines
`input`. The method never validates the credentials: it builds the
authenticator, sends `AUTH <TYPE>` and then runs the mechanism dialogue
(PLAIN: send response, read; LOGIN: send base64 username, read, send base64
password, read; CRAM-MD5: read the challenge line — raw, CRLF included —
generate, send, read). Reply codes are never inspected (`readResponse`
returns any line); an unknown type is the wrapped `NewAuthenticator`
error. -/
def Authenticate (authType username password : GoStr) (input : List GoStr) : AuthRun :=
  if authType = "plain".toList then
    let sent := ["AUTH PLAIN".toList ++ crlf, plainAuthResponse username password ++ crlf]
    match readResponse input with
    | Except.error e => ⟨sent, some e⟩
    | Except.ok _ => ⟨sent, none⟩
  else if authType = "login".toList then
    let sent1 := ["AUTH LOGIN".toList ++ crlf, loginAuthResponse username ++ crlf]
    match readResponse input with
    | Except.error e => ⟨sent1, some e⟩
    | Except.ok (_, in1) =>
      let sent2 := sent1 ++ [loginGetPassword password ++ crlf]
      match readResponse in1 with
      | Except.error e => ⟨sent2, some e⟩
      | Except.ok _ => ⟨sent2, none⟩
  else if authType = "cram-md5".toList then
    let sent1 := ["AUTH CRAM-MD5".toList ++ crlf]
    match readResponse input with
    | Except.error e =>
      ⟨sent1, some ("failed to read CRAM-MD5 challenge: ".toList ++ e)⟩
    | Except.ok (challenge, in1) =>
      match GenerateResponse challenge username password with
      | Except.error e =>
        ⟨sent1, some ("failed to generate CRAM-MD5 response: ".toList ++ e)⟩
      | Except.ok resp =>
        let sent2 := sent1 ++ [resp ++ crlf]
        match readResponse in1 with
        | Except.error e => ⟨sent2, some e⟩
        | Except.ok _ => ⟨sent2, none⟩
  else
    ⟨[], some ("failed to create authenticator: unsupported authentication type: ".toList
        ++ authType)⟩

/-- The credential check in `main` (part_000 lines 270-275): when an auth
type is configured, empty username or password aborts the program before
`client.Authenticate` is ever called. `true` means the fatal exit fires. -/
def mainCredentialGateFires (username password : GoStr) : Bool :=
  username.isEmpty || password.isEmpty

/-! ### Helper lemmas about the retry loop -/

/-- When every invocation of `fn` fails, the loop runs through its whole fuel,
sleeping on every non-final attempt, and wraps the error of the final
attempt. -/
theorem withRetryAux_always_fails (fn : Nat → Option GoStr) (op : GoStr) (max : Int)
    (e : Nat → GoStr) (he : ∀ i, fn i = some (e i)) :
    ∀ (fuel attempt calls sleeps : Nat) (lastErr : Option GoStr),
      1 ≤ fuel → (attempt : Int) + fuel - 1 = max →
      withRetryAux fn op max attempt calls sleeps lastErr fuel =
        ⟨calls + fuel, sleeps + (fuel - 1),
          some (op ++ " failed after ".toList ++ (toString max).toList ++
            " attempts: ".toList ++ e (attempt + fuel - 1))⟩ := by
  intro fuel
  induction fuel with
  | zero => intro attempt calls sleeps lastErr h1 h2; omega
  | succ f ih =>
    intro attempt calls sleeps lastErr h1 h2
    rw [withRetryAux, he attempt]
    dsimp only
    rcases Nat.eq_zero_or_pos f with hf | hf
    · subst hf
      have hlt : ¬ ((attempt : Int) < max) := by omega
      rw [if_neg hlt]
      have h3 : attempt + 1 - 1 = attempt := by omega
      simp [h3]
    · have hlt : (attempt : Int) < max := by omega
      rw [if_pos hlt]
      rw [ih (attempt + 1) (calls + 1) (sleeps + 1) (some (e attempt)) hf (by push_cast; omega)]
      have h3 : attempt + 1 + f - 1 = attempt + (f + 1) - 1 := by omega
      have h4 : calls + 1 + f = calls + (f + 1) := by omega
      have h5 : sleeps + 1 + (f - 1) = sleeps + (f + 1 - 1) := by omega
      rw [h3, h4, h5]

/-- When the attempt `d` steps ahead of the current one is the first success,
the loop stops there with no further sleeps and returns nil. -/
theorem withRetryAux_first_success (fn : Nat → Option GoStr) (op : GoStr) (max : Int) :
    ∀ (d fuel attempt calls sleeps : Nat) (lastErr : Option GoStr),
      (∀ i, attempt ≤ i → i < attempt + d → fn i ≠ none) →
      fn (attempt + d) = none →
      d < fuel →
      (attempt : Int) + d ≤ max →
      withRetryAux fn op max attempt calls sleeps lastErr fuel =
        ⟨calls + d + 1, sleeps + d, none⟩ := by
  intro d
  induction d with
  | zero =>
    intro fuel attempt calls sleeps lastErr hfail hsucc hfuel hmax
    obtain ⟨f, rfl⟩ : ∃ f, fuel = f + 1 := ⟨fuel - 1, by omega⟩
    rw [withRetryAux]
    simp only [Nat.add_zero] at hsucc
    rw [hsucc]
    dsimp only
    simp
  | succ k ih =>
    intro fuel attempt calls sleeps lastErr hfail hsucc hfuel hmax
    obtain ⟨f, rfl⟩ : ∃ f, fuel = f + 1 := ⟨fuel - 1, by omega⟩
    have hne : fn attempt ≠ none := hfail attempt (Nat.le_refl _) (by omega)
    obtain ⟨err, herr⟩ : ∃ err, fn attempt = some err := by
      cases h : fn attempt with
      | none => exact absurd h hne
      | some v => exact ⟨v, rfl⟩
    rw [withRetryAux, herr]
    dsimp only
    rw [if_pos (by omega : (attempt : Int) < max)]
    rw [ih f (attempt + 1) (calls + 1) (sleeps + 1) (some err)
      (fun i h1 h2 => hfail i (by omega) (by omega))
      (by have : attempt + 1 + k = attempt + (k + 1) := by omega
          rw [this]; exact hsucc)
      (by omega) (by push_cast; omega)]
    have h4 : calls + 1 + k + 1 = calls + (k + 1) + 1 := by omega
    have h5 : sleeps + 1 + k = sleeps + (k + 1) := by omega
    rw [h4, h5]

/-- `withRetry` under an always-failing body: `MaxAttempts` calls,
`MaxAttempts - 1` sleeps, and the wrapped final error. -/
theorem withRetry_always_fails (fn : Nat → Option GoStr) (op : GoStr) (max : Int)
    (e : Nat → GoStr) (he : ∀ i, fn i = some (e i)) (h : 1 ≤ max) :
    withRetry fn op max =
      ⟨max.toNat, max.toNat - 1,
        some (op ++ " failed after ".toList ++ (toString max).toList ++
          " attempts: ".toList ++ e max.toNat)⟩ := by
  rw [withRetry,
    withRetryAux_always_fails fn op max e he max.toNat 1 0 0 none (by omega) (by omega)]
  have h1 : 1 + max.toNat - 1 = max.toNat := by omega
  have h2 : (0 : Nat) + max.toNat = max.toNat := by omega
  rw [h1, h2, Nat.zero_add]

/-- `withRetry` when the first success is attempt `k`: `k` calls, `k - 1`
sleeps, nil returned immediately. -/
theorem withRetry_succeeds_at (fn : Nat → Option GoStr) (op : GoStr) (max : Int)
    (k : Nat) (hk1 : 1 ≤ k) (hk2 : (k : Int) ≤ max)
    (hfail : ∀ i, 1 ≤ i → i < k → fn i ≠ none) (hsucc : fn k = none) :
    withRetry fn op max = ⟨k, k - 1, none⟩ := by
  rw [withRetry,
    withRetryAux_first_success fn op max (k - 1) max.toNat 1 0 0 none
      (fun i h1 h2 => hfail i h1 (by omega))
      (by have : 1 + (k - 1) = k := by omega
          rw [this]; exact hsucc)
      (by omega) (by push_cast; omega)]
  have h4 : 0 + (k - 1) + 1 = k := by omega
  rw [h4, Nat.zero_add]

/-! ### Claim theorems -/

/-- C6: for `MaxAttempts = n ≥ 1` and an always-failing `fn`, `withRetry`
invokes `fn` exactly `n` times, sleeps exactly `n - 1` times (each sleep is
one `time.Sleep(Delay)`, taken between failed attempts and never after the
last), and returns an error wrapping the last failure and the operation
name; and when some invocation succeeds (`k` the first such attempt),
`withRetry` returns nil immediately after `k` calls and `k - 1` sleeps. -/
theorem withRetry_contract (op : GoStr) (fn : Nat → Option GoStr) (e : Nat → GoStr)
    (n : Int) (hn : 1 ≤ n) :
    ((∀ i, fn i = some (e i)) →
      withRetry fn op n =
        ⟨n.toNat, n.toNat - 1,
          some (op ++ " failed after ".toList ++ (toString n).toList ++
            " attempts: ".toList ++ e n.toNat)⟩) ∧
    (∀ k : Nat, 1 ≤ k → (k : Int) ≤ n → (∀ i, 1 ≤ i → i < k → fn i ≠ none) →
      fn k = none → withRetry fn op n = ⟨k, k - 1, none⟩) :=
  ⟨fun he => withRetry_always_fails fn op n e he hn,
   fun k h1 h2 h3 h4 => withRetry_succeeds_at fn op n k h1 h2 h3 h4⟩

/-- Witness for C6: three attempts of an always-failing operation give
exactly 3 calls, 2 sleeps, and the wrapped final error. -/
theorem withRetry_contract_witness :
    (1 : Int) ≤ 3 ∧
      withRetry (fun _ => some ("x".toList)) ("op".toList) 3 =
        ⟨3, 2, some ("op failed after 3 attempts: x".toList)⟩ := by
  refine ⟨by norm_num, ?_⟩
  rw [(withRetry_contract ("op".toList) (fun _ => some ("x".toList))
    (fun _ => "x".toList) 3 (by norm_num)).1 (fun i => rfl)]
  decide

/-- C10: with `MaxAttempts ≤ 0` the loop body never runs: `withRetry`
returns the zero-valued `lastErr` (nil, i.e. success) after zero calls and
zero sleeps, whatever the operation and body are. -/
theorem withRetry_nonpositive_returns_nil (op : GoStr) (fn : Nat → Option GoStr)
    (max : Int) (h : max ≤ 0) :
    withRetry fn op max = ⟨0, 0, none⟩ := by
  rw [withRetry]
  have h0 : max.toNat = 0 := by omega
  rw [h0]
  rfl

/-- Witness for C10 at `MaxAttempts = 0` with an always-failing body. -/
theorem withRetry_nonpositive_returns_nil_witness :
    (0 : Int) ≤ 0 ∧
      withRetry (fun _ => some ("boom".toList)) ("connect".toList) 0 = ⟨0, 0, none⟩ :=
  ⟨Int.le_refl 0,
   withRetry_nonpositive_returns_nil ("connect".toList)
     (fun _ => some ("boom".toList)) 0 (Int.le_refl 0)⟩

/-- C1 counterexample: a greeting whose code does not start with '2' — here
`554 service not available` — still makes `Connect` succeed (nil error),
because `readResponse` hands back any line it could read and `Connect`
never inspects the code. -/
theorem connect_accepts_bad_greeting_code :
    (ConnectModel 3 ["554 service not available\r\n".toList]).result = none := by
  decide

/-- C1 amended: `Connect` succeeds exactly when a greeting line can be read
at all — whatever its code; it fails (wrapping "failed to read server
greeting" after exhausting the retries) only when reading the greeting
fails. -/
theorem connect_succeeds_iff_greeting_read (n : Int) (g : List GoStr) (hn : 1 ≤ n) :
    (ConnectModel n g).result = none ↔ g ≠ [] := by
  cases g with
  | nil =>
    rw [ConnectModel,
      withRetry_always_fails (fun _ => connectAttemptErr ([] : List GoStr))
        ("connect".toList) n
        (fun _ => "failed to read server greeting: ".toList ++
          "failed to read response: EOF".toList)
        (fun i => rfl) hn]
    simp
  | cons l rest =>
    rw [ConnectModel,
      withRetry_succeeds_at (fun _ => connectAttemptErr (l :: rest))
        ("connect".toList) n 1 (Nat.le_refl 1) (by omega)
        (fun i h1 h2 => absurd (Nat.lt_of_lt_of_le h2 h1) (Nat.lt_irrefl i))
        rfl]
    simp

/-- Witness for the amended C1 at a readable `220` greeting and two
configured attempts. -/
theorem connect_succeeds_iff_greeting_read_witness :
    (1 : Int) ≤ 2 ∧
      ((ConnectModel 2 ["220 smtp.example.com ESMTP ready\r\n".toList]).result = none ↔
        (["220 smtp.example.com ESMTP ready\r\n".toList] : List GoStr) ≠ []) :=
  ⟨by norm_num,
   connect_succeeds_iff_greeting_read 2 ["220 smtp.example.com ESMTP ready\r\n".toList]
     (by norm_num)⟩

/-- Continuation lines (4th byte not SP) are skipped by the STARTTLS read
loop. -/
theorem startTLSLoop_skip (rest : List GoStr) :
    ∀ pre : List GoStr, (∀ l ∈ pre, ¬(4 ≤ l.length ∧ l[3]? = some ' ')) →
      startTLSLoop (pre ++ rest) = startTLSLoop rest := by
  intro pre
  induction pre with
  | nil => intro _; rfl
  | cons l pre ih =>
    intro h
    rw [List.cons_append, startTLSLoop,
      if_neg (h l (List.mem_cons_self l pre))]
    exact ih (fun x hx => h x (List.mem_cons_of_mem l hx))

/-- C2: when the final STARTTLS reply (the first pending line with a SP in
its 4th byte, after any continuation lines) has a code not starting with
'2', `StartTLS` returns the ProtocolError-class rejection carrying the raw
line, and the client keeps its plaintext transport: `conn`, `reader` and
`writer` are untouched, `tls` stays false, and `tlsConn.Handshake()` is
never reached. -/
theorem starttls_rejection_leaves_state (st : ClientState) (pre : List GoStr)
    (f : GoStr) (rest : List GoStr) (hok : Bool)
    (hin : st.input = pre ++ f :: rest)
    (hpre : ∀ l ∈ pre, ¬(4 ≤ l.length ∧ l[3]? = some ' '))
    (hf4 : 4 ≤ f.length) (hf3 : f[3]? = some ' ') (hf0 : f[0]? ≠ some '2')
    (htls : st.tls = false) :
    (StartTLS st hok).error = some ("server rejected STARTTLS: ".toList ++ f) ∧
    (StartTLS st hok).state.conn = st.conn ∧
    (StartTLS st hok).state.reader = st.reader ∧
    (StartTLS st hok).state.writer = st.writer ∧
    (StartTLS st hok).state.tls = false ∧
    (StartTLS st hok).handshakeAttempted = false := by
  have hloop : startTLSLoop st.input =
      (some ("server rejected STARTTLS: ".toList ++ f), rest) := by
    rw [hin, startTLSLoop_skip (f :: rest) pre hpre, startTLSLoop,
      if_pos ⟨hf4, hf3⟩, if_pos hf0]
  rw [StartTLS]
  dsimp only
  rw [hloop]
  exact ⟨rfl, rfl, rfl, rfl, htls, rfl⟩

/-- Witness for C2: the spec's `454 TLS not available` final reply. -/
theorem starttls_rejection_leaves_state_witness :
    (let st : ClientState :=
      ⟨7, 8, 9, false, ["454 TLS not available\r\n".toList], []⟩
     (⟨7, 8, 9, false, ["454 TLS not available\r\n".toList], []⟩ : ClientState).input =
        [] ++ "454 TLS not available\r\n".toList :: [] ∧
      (StartTLS st true).error =
        some ("server rejected STARTTLS: ".toList ++ "454 TLS not available\r\n".toList) ∧
      (StartTLS st true).state.conn = st.conn ∧
      (StartTLS st true).state.reader = st.reader ∧
      (StartTLS st true).state.writer = st.writer ∧
      (StartTLS st true).state.tls = false ∧
      (StartTLS st true).handshakeAttempted = false) := by
  refine ⟨by decide, ?_⟩
  exact starttls_rejection_leaves_state
    ⟨7, 8, 9, false, ["454 TLS not available\r\n".toList], []⟩
    [] ("454 TLS not available\r\n".toList) [] true
    (by decide) (by decide) (by decide) (by decide) (by decide) rfl

/-- C3: the `tls.Config` used for the STARTTLS upgrade has
`InsecureSkipVerify` hard-coded to `true`: server-name/certificate
verification is always skipped, whatever the caller-visible `skip_verify`
option says. This contradicts the claim (and the repository's own
`--skip-verify` documentation and `skip_verify: false` default): disabling
verification IS the silent default of `StartTLS`. -/
theorem starttls_verification_always_skipped :
    ∀ (server : GoStr) (skipVerifyOption : Bool),
      (startTLSConfig server skipVerifyOption).insecureSkipVerify = true :=
  fun _ _ => rfl

/-- C4: `GenerateResponse` is the pure function base64(username SP
hex(HMAC-MD5(password, base64-decode(challenge)))) of its three inputs; on
the RFC 2195 vector — challenge `<1896.697170952@postoffice.reston.mci.net>`
(transmitted base64-encoded), username `tim`, password `tanstaaftanstaaf` —
it returns exactly the base64 text whose decoding is
`tim b913a602c7eda7a495b4e6e7334d3890`. -/
theorem cram_md5_rfc2195_vector :
    GenerateResponse
        (base64Encode (("<1896.697170952@postoffice.reston.mci.net>".toList).map Char.toNat))
        ("tim".toList) ("tanstaaftanstaaf".toList) =
      Except.ok ("dGltIGI5MTNhNjAyYzdlZGE3YTQ5NWI0ZTZlNzMzNGQzODkw".toList) ∧
    base64Decode ("dGltIGI5MTNhNjAyYzdlZGE3YTQ5NWI0ZTZlNzMzNGQzODkw".toList) =
      some (("tim b913a602c7eda7a495b4e6e7334d3890".toList).map Char.toNat) := by
  constructor
  · rfl
  · decide

/-- C8: parsing the spec's EHLO response yields pipelining on, size
10485760 and the AUTH mechanisms in advertised order and case; the
greeting line's keyword (`mail.example.com`) matches no case of the switch
and is ignored, STARTTLS/8BITMIME stay at their zero values; and because
the method starts from a fresh `ServerCapabilities\x7b\x7d`, the result replaces
any previous capability value instead of merging with it. -/
theorem ehlo_capabilities_parse :
    parseCapabilities
        (("250-mail.example.com\r\n250-PIPELINING\r\n250-SIZE 10485760\r\n" ++
          "250 AUTH PLAIN LOGIN CRAM-MD5\r\n").toList) =
      { Pipelining := true, StartTLS := false,
        Auth := ["PLAIN".toList, "LOGIN".toList, "CRAM-MD5".toList],
        Size := 10485760, EightBit := false } ∧
    ∀ (old : ServerCapabilities) (response : GoStr),
      parseCapabilitiesFrom old response = parseCapabilities response := by
  constructor
  · decide
  · intro old response
    rfl

/-- When one line is pending per expected RCPT TO reply, the pipelined reply
loop reads exactly those lines in order and leaves the rest. -/
theorem readLoopRcpt_complete :
    ∀ (rs rest : List GoStr),
      readLoopRcpt rs.length (rs ++ rest) = (rs.map Ev.read, Except.ok rest) := by
  intro rs
  induction rs with
  | nil => intro rest; rfl
  | cons r rs ih =>
    intro rest
    rw [List.length_cons, List.cons_append, readLoopRcpt, ih rest]
    rfl

/-- `readResponse` on a non-exhausted reader returns the next raw line. -/
theorem readResponse_cons (l : GoStr) (rest : List GoStr) :
    readResponse (l :: rest) = Except.ok (l, rest) := rfl

/-- `SendCommand` produces one buffered write and one flush, and reads
nothing. -/
theorem counts_sendCommandEv (c : GoStr) :
    countWrites (sendCommandEv c) = 1 ∧ countReads (sendCommandEv c) = 0 ∧
      countFlushes (sendCommandEv c) = 1 := by
  refine ⟨rfl, rfl, rfl⟩

/-- Write counts split over trace concatenation. -/
theorem countWrites_append (s t : List Ev) :
    countWrites (s ++ t) = countWrites s + countWrites t := by
  rw [countWrites, countWrites, countWrites, List.countP_append]

/-- Read counts split over trace concatenation. -/
theorem countReads_append (s t : List Ev) :
    countReads (s ++ t) = countReads s + countReads t := by
  rw [countReads, countReads, countReads, List.countP_append]

/-- Flush counts split over trace concatenation. -/
theorem countFlushes_append (s t : List Ev) :
    countFlushes (s ++ t) = countFlushes s + countFlushes t := by
  rw [countFlushes, countFlushes, countFlushes, List.countP_append]

/-- Event counts of the per-recipient RCPT TO command blocks. -/
theorem counts_rcptBlocks :
    ∀ rs : List GoStr,
      countWrites ((rs.map (fun r => sendCommandEv (rcptToCmd r))).flatten) = rs.length ∧
      countReads ((rs.map (fun r => sendCommandEv (rcptToCmd r))).flatten) = 0 ∧
      countFlushes ((rs.map (fun r => sendCommandEv (rcptToCmd r))).flatten) = rs.length := by
  intro rs
  induction rs with
  | nil => refine ⟨rfl, rfl, rfl⟩
  | cons r rs ih =>
    obtain ⟨h1, h2, h3⟩ := ih
    refine ⟨?_, ?_, ?_⟩
    · rw [List.map_cons, List.flatten_cons, countWrites_append, h1,
        (counts_sendCommandEv (rcptToCmd r)).1, List.length_cons]
      omega
    · rw [List.map_cons, List.flatten_cons, countReads_append, h2,
        (counts_sendCommandEv (rcptToCmd r)).2.1]
    · rw [List.map_cons, List.flatten_cons, countFlushes_append, h3,
        (counts_sendCommandEv (rcptToCmd r)).2.2, List.length_cons]
      omega

/-- C5: in one pipelined send attempt for `N = |uniqueRecipients|`, the
trace is the command batch — the `N + 2` command writes (MAIL FROM, one
RCPT TO per unique recipient, DATA), each immediately flushed by
`SendCommand`, plus the attempt's final flush, so `N + 3` flushes in all
and NOT a single batch-end flush — followed by the `N + 2` replies read
before the payload writes, then the final reply. The batch contains
exactly `N + 2` writes and no read. -/
theorem pipelined_writes_before_reads (msg : Msg) (r0 d f : GoStr)
    (rs tail : List GoStr) (hrs : rs.length = (uniqueRecipients msg).length) :
    SendMessagePipelinedAttempt msg (r0 :: rs ++ d :: f :: tail) =
      (pipelinedBatch msg ++ Ev.read r0 :: rs.map Ev.read ++ Ev.read d ::
        (sendCommandEv msg.payload ++ sendCommandEv (".".toList)) ++ [Ev.read f],
       none) ∧
    countWrites (pipelinedBatch msg) = (uniqueRecipients msg).length + 2 ∧
    countReads (pipelinedBatch msg) = 0 ∧
    countFlushes (pipelinedBatch msg) = (uniqueRecipients msg).length + 3 := by
  obtain ⟨hw, hr, hf⟩ := counts_rcptBlocks (uniqueRecipients msg)
  refine ⟨?_, ?_, ?_, ?_⟩
  · simp only [SendMessagePipelinedAttempt, ← hrs, List.cons_append, readResponse_cons,
      readLoopRcpt_complete]
  · rw [pipelinedBatch, countWrites_append, countWrites_append, countWrites_append,
      (counts_sendCommandEv (mailFromCmd msg.From)).1,
      (counts_sendCommandEv ("DATA".toList)).1, hw]
    have hfl : countWrites [Ev.flush] = 0 := rfl
    rw [hfl]
    omega
  · rw [pipelinedBatch, countReads_append, countReads_append, countReads_append,
      (counts_sendCommandEv (mailFromCmd msg.From)).2.1,
      (counts_sendCommandEv ("DATA".toList)).2.1, hr]
    rfl
  · rw [pipelinedBatch, countFlushes_append, countFlushes_append, countFlushes_append,
      (counts_sendCommandEv (mailFromCmd msg.From)).2.2,
      (counts_sendCommandEv ("DATA".toList)).2.2, hf]
    have hfl : countFlushes [Ev.flush] = 1 := rfl
    rw [hfl]
    omega

/-- Witness for C5: two unique recipients, five pending reply lines. -/
theorem pipelined_writes_before_reads_witness :
    (["250 a\r\n".toList, "250 b\r\n".toList] : List GoStr).length =
      (uniqueRecipients ⟨"s@x".toList, ["r1@x".toList], ["r2@x".toList], [],
        "body".toList⟩).length ∧
    SendMessagePipelinedAttempt
        ⟨"s@x".toList, ["r1@x".toList], ["r2@x".toList], [], "body".toList⟩
        ("250 m\r\n".toList :: ["250 a\r\n".toList, "250 b\r\n".toList] ++
          "354 go\r\n".toList :: "250 ok\r\n".toList :: []) =
      (pipelinedBatch ⟨"s@x".toList, ["r1@x".toList], ["r2@x".toList], [],
          "body".toList⟩ ++
        Ev.read ("250 m\r\n".toList) ::
        (["250 a\r\n".toList, "250 b\r\n".toList] : List GoStr).map Ev.read ++
        Ev.read ("354 go\r\n".toList) ::
        (sendCommandEv ("body".toList) ++ sendCommandEv (".".toList)) ++
        [Ev.read ("250 ok\r\n".toList)], none) := by
  refine ⟨by decide, ?_⟩
  exact (pipelined_writes_before_reads
    ⟨"s@x".toList, ["r1@x".toList], ["r2@x".toList], [], "body".toList⟩
    ("250 m\r\n".toList) ("354 go\r\n".toList) ("250 ok\r\n".toList)
    ["250 a\r\n".toList, "250 b\r\n".toList] [] (by decide)).1

/-- The dedup loop agrees with the spec's first-seen-order description. -/
theorem goDedupAux_firstSeen :
    ∀ (l seen : List GoStr),
      goDedupAux seen l = firstSeenDedup (l.filter (fun y => decide (y ∉ seen))) := by
  intro l
  induction l with
  | nil =>
    intro seen
    simp [goDedupAux, firstSeenDedup]
  | cons r rest ih =>
    intro seen
    by_cases h : r ∈ seen
    · rw [goDedupAux, if_pos h]
      have hf : List.filter (fun y => decide (y ∉ seen)) (r :: rest) =
          List.filter (fun y => decide (y ∉ seen)) rest := by
        simp [List.filter_cons, h]
      rw [hf]
      exact ih seen
    · rw [goDedupAux, if_neg h]
      have hf : List.filter (fun y => decide (y ∉ seen)) (r :: rest) =
          r :: List.filter (fun y => decide (y ∉ seen)) rest := by
        simp [List.filter_cons, h]
      rw [hf]
      simp only [firstSeenDedup]
      congr 1
      rw [ih (r :: seen), List.filter_filter]
      refine congrArg firstSeenDedup (List.filter_congr ?_)
      intro a _
      by_cases h1 : a = r
      · simp [h1]
      · by_cases h2 : a ∈ seen <;> simp [h1, h2, List.mem_cons]

/-- The source's seen-map deduplication keeps exactly the first occurrence
of each recipient, in first-seen order. -/
theorem goDedup_eq_firstSeen (l : List GoStr) : goDedup l = firstSeenDedup l := by
  rw [goDedup, goDedupAux_firstSeen l []]
  congr 1
  simp

/-- RCPT TO write counts split over trace concatenation. -/
theorem countRcpt_append (s t : List Ev) :
    countRcptWrites (s ++ t) = countRcptWrites s + countRcptWrites t := by
  rw [countRcptWrites, countRcptWrites, countRcptWrites, List.countP_append]

/-- Each RCPT TO command block contributes exactly one RCPT TO write. -/
theorem countRcpt_sendCmd_rcpt (r : GoStr) :
    countRcptWrites (sendCommandEv (rcptToCmd r)) = 1 := by
  have hp : ['R', 'C', 'P', 'T', ' ', 'T', 'O', ':', '<'] <+: rcptToCmd r ++ crlf :=
    ⟨r ++ (">".toList ++ crlf), by simp [rcptToCmd, List.append_assoc]⟩
  simp [countRcptWrites, sendCommandEv, List.countP_cons, hp]

/-- The MAIL FROM command block contributes no RCPT TO write (its wire bytes
start with `MAIL FROM:<`, never with `RCPT TO:<`). -/
theorem countRcpt_mailFrom (s : GoStr) :
    countRcptWrites (sendCommandEv (mailFromCmd s)) = 0 := by
  rfl

/-- C7: the RCPT TO recipient list is To ++ Cc ++ Bcc deduplicated in
first-seen order; for To = [a], Cc = [a, b] with a ≠ b it is exactly
[a, b], the pipelined batch carries exactly 2 RCPT TO command writes, and
the sequential strategy's trace contains exactly the two RCPT TO command
blocks for a and b (in that order). Both strategies share the same
dedup loop, which coincides with the spec's first-seen dedup on every
list. -/
theorem recipients_dedup_first_seen (sender payload a b : GoStr) (hab : a ≠ b) :
    uniqueRecipients ⟨sender, [a], [a, b], [], payload⟩ = [a, b] ∧
    countRcptWrites (pipelinedBatch ⟨sender, [a], [a, b], [], payload⟩) = 2 ∧
    (∀ (r0 r1 r2 d f : GoStr) (tail : List GoStr),
      sendMessageNonPipelinedAttempt ⟨sender, [a], [a, b], [], payload⟩
          (r0 :: r1 :: r2 :: d :: f :: tail) =
        (sendCommandEv (mailFromCmd sender) ++ Ev.read r0 ::
          (sendCommandEv (rcptToCmd a) ++ Ev.read r1 ::
            (sendCommandEv (rcptToCmd b) ++ Ev.read r2 :: [])) ++
          sendCommandEv ("DATA".toList) ++ Ev.read d ::
          sendCommandEv payload ++ sendCommandEv (".".toList) ++ [Ev.read f], none)) ∧
    (∀ m : Msg, uniqueRecipients m = goDedup (m.To ++ m.Cc ++ m.Bcc)) ∧
    (∀ l : List GoStr, goDedup l = firstSeenDedup l) := by
  have huniq : uniqueRecipients ⟨sender, [a], [a, b], [], payload⟩ = [a, b] := by
    simp [uniqueRecipients, goDedup, goDedupAux, List.mem_cons, Ne.symm hab]
  refine ⟨huniq, ?_, ?_, fun m => rfl, goDedup_eq_firstSeen⟩
  · rw [pipelinedBatch, huniq, countRcpt_append, countRcpt_append, countRcpt_append,
      countRcpt_mailFrom]
    simp only [List.map_cons, List.map_nil, List.flatten_cons, List.flatten_nil,
      countRcpt_append, countRcpt_sendCmd_rcpt]
    rfl
  · intro r0 r1 r2 d f tail
    rw [sendMessageNonPipelinedAttempt, huniq]
    simp only [rcptSeqLoop, readResponse_cons, List.cons_append, List.append_assoc,
      List.nil_append, List.append_nil]

/-- Witness for C7 at concrete distinct recipients. -/
theorem recipients_dedup_first_seen_witness :
    ("a@x".toList : GoStr) ≠ "b@x".toList ∧
    (uniqueRecipients ⟨"s@x".toList, ["a@x".toList], ["a@x".toList, "b@x".toList], [],
        "body".toList⟩ = ["a@x".toList, "b@x".toList] ∧
      countRcptWrites (pipelinedBatch ⟨"s@x".toList, ["a@x".toList],
        ["a@x".toList, "b@x".toList], [], "body".toList⟩) = 2 ∧
      (∀ (r0 r1 r2 d f : GoStr) (tail : List GoStr),
        sendMessageNonPipelinedAttempt ⟨"s@x".toList, ["a@x".toList],
            ["a@x".toList, "b@x".toList], [], "body".toList⟩
            (r0 :: r1 :: r2 :: d :: f :: tail) =
          (sendCommandEv (mailFromCmd ("s@x".toList)) ++ Ev.read r0 ::
            (sendCommandEv (rcptToCmd ("a@x".toList)) ++ Ev.read r1 ::
              (sendCommandEv (rcptToCmd ("b@x".toList)) ++ Ev.read r2 :: [])) ++
            sendCommandEv ("DATA".toList) ++ Ev.read d ::
            sendCommandEv ("body".toList) ++ sendCommandEv (".".toList) ++
            [Ev.read f], none)) ∧
      (∀ m : Msg, uniqueRecipients m = goDedup (m.To ++ m.Cc ++ m.Bcc)) ∧
      (∀ l : List GoStr, goDedup l = firstSeenDedup l)) :=
  ⟨by decide,
   recipients_dedup_first_seen ("s@x".toList) ("body".toList) ("a@x".toList)
     ("b@x".toList) (by decide)⟩

/-- C9 counterexample: `Authenticate("plain", "", "")` with both credentials
empty does not fail with an AuthError and does send commands: it sends
`AUTH PLAIN` and then the PLAIN response base64("\x00\x00") = `AAA=`, and
returns nil once the server's reply line is read. -/
theorem authenticate_empty_credentials_no_error :
    Authenticate ("plain".toList) [] [] ["235 ok\r\n".toList] =
      ⟨["AUTH PLAIN\r\n".toList, "AAA=\r\n".toList], none⟩ := by
  decide

/-- C9 amended: `Authenticate` itself never validates the credentials — for
each mechanism it sends its `AUTH <TYPE>` announcement first whatever the
username and password are, empty or not; the non-empty requirement is
enforced by the CLI `main`, which exits fatally before calling
`Authenticate` whenever username or password is empty. -/
theorem authenticate_credential_check_in_main (u p : GoStr) (input : List GoStr)
    (h : u = [] ∨ p = []) :
    (Authenticate ("plain".toList) u p input).sent.head? =
      some ("AUTH PLAIN".toList ++ crlf) ∧
    (Authenticate ("login".toList) u p input).sent.head? =
      some ("AUTH LOGIN".toList ++ crlf) ∧
    (Authenticate ("cram-md5".toList) u p input).sent.head? =
      some ("AUTH CRAM-MD5".toList ++ crlf) ∧
    mainCredentialGateFires u p = true := by
  refine ⟨?_, ?_, ?_, ?_⟩
  · rw [Authenticate, if_pos rfl]
    cases input <;> rfl
  · rw [Authenticate, if_neg (by decide), if_pos rfl]
    cases input with
    | nil => rfl
    | cons l rest => cases rest <;> rfl
  · rw [Authenticate, if_neg (by decide), if_neg (by decide), if_pos rfl]
    cases input with
    | nil => rfl
    | cons l rest =>
      simp only [readResponse_cons]
      cases hg : GenerateResponse l u p with
      | error e => simp [hg]
      | ok resp => cases rest <;> simp [hg, readResponse, List.cons_append]
  · rcases h with h | h <;> subst h <;> simp [mainCredentialGateFires]

/-- Witness for the amended C9: empty username, non-empty password. -/
theorem authenticate_credential_check_in_main_witness :
    (([] : GoStr) = [] ∨ ("pw".toList : GoStr) = []) ∧
    ((Authenticate ("plain".toList) [] ("pw".toList) []).sent.head? =
      some ("AUTH PLAIN".toList ++ crlf) ∧
    (Authenticate ("login".toList) [] ("pw".toList) []).sent.head? =
      some ("AUTH LOGIN".toList ++ crlf) ∧
    (Authenticate ("cram-md5".toList) [] ("pw".toList) []).sent.head? =
      some ("AUTH CRAM-MD5".toList ++ crlf) ∧
    mainCredentialGateFires [] ("pw".toList) = true) :=
  ⟨Or.inl rfl, authenticate_credential_check_in_main [] ("pw".toList) [] (Or.inl rfl)⟩
